import Mathlib

/-!
Shallow embedding of the docker-builder-service backend (src/backend/app.py)
and verification of its specification claims.

Machine-level conventions of the embedding:
* Python strings are Lean `String`s; `str.strip()` is modelled by `pystrip`
  (whitespace removal at both ends), `str.lower()` by an ASCII-faithful
  character map, and `needle in hay` by `containsSubstr`.
* The filesystem tree of a workspace is an association list from relative
  path to file content (`FileTree`); `(dir / f).exists()` is membership of
  the path, `open(p, "w").write(c)` replaces the entry at `p`.
* External collaborators (the git subprocess, the docker engine, the
  filesystem behaviour of the retried clean step) are oracles carried in a
  `World`; the handler is a pure function of the request and the oracles.
* Python exceptions are the inductive `PyExc`; `str(e)` is `PyExc.pystr`.
* `shutil.rmtree(d, ignore_errors=True)` in the `finally` block is modelled
  as removal of the directory.
-/

/-- Whitespace trimming on a character list: drop leading and trailing
whitespace.  Models Python `str.strip()` (restricted to the whitespace
characters Lean knows, which covers the ASCII ones Python strips). -/
def trimChars (l : List Char) : List Char :=
  ((l.dropWhile Char.isWhitespace).reverse.dropWhile Char.isWhitespace).reverse

/-- Python `s.strip()`. -/
def pystrip (s : String) : String := ⟨trimChars s.data⟩

/-- Helper for substring search: does `needle` occur inside the list? -/
def infixCheck (needle : List Char) : List Char → Bool
  | [] => needle.isEmpty
  | x :: rest => needle.isPrefixOf (x :: rest) || infixCheck needle rest

/-- Python `needle in hay` on strings. -/
def containsSubstr (hay needle : String) : Bool := infixCheck needle.data hay.data

/-- A Python exception value, as far as the handler distinguishes them. -/
inductive PyExc where
  | valueError (msg : String)
  | runtimeError (msg : String)
  | attributeError (msg : String)
  | other (msg : String)
deriving Repr, DecidableEq

/-- Python `str(e)`: the message carried by the exception. -/
def PyExc.pystr : PyExc → String
  | .valueError m => m
  | .runtimeError m => m
  | .attributeError m => m
  | .other m => m

/-- A JSON value as it reaches the handler through `request.get_json()`;
only the distinctions the handler can observe are modelled. -/
inductive PyVal where
  | str (s : String)
  | num (n : Int)
  | pynone
  | list (l : List String)
deriving Repr, DecidableEq

/-- `data.get(key, default)` on a JSON object (association list). -/
def dictGet (d : List (String × PyVal)) (k : String) (dflt : PyVal) : PyVal :=
  match d.find? (fun kv => kv.1 == k) with
  | some kv => kv.2
  | none => dflt

/-- `value.strip()`: succeeds on a string, raises `AttributeError` on any
other value (Python: non-strings have no `strip` attribute). -/
def pyStripVal : PyVal → Except PyExc String
  | .str s => .ok (pystrip s)
  | _ => .error (.attributeError "object has no attribute strip")

/-- The contents of a workspace directory: relative path ↦ file content. -/
abbrev FileTree := List (String × String)

/-- `(build_dir / file).exists()`. -/
def hasFile (tree : FileTree) (file : String) : Bool :=
  tree.any (fun f => f.1 == file)

/-- `open(build_dir / p, "w") ... f.write(content)`: replace the file at
`p` by `content`. -/
def writeFile (tree : FileTree) (p content : String) : FileTree :=
  (p, content) :: tree.filter (fun f => f.1 != p)

/-- Read the content of the file at `p`, if present. -/
def readFile (tree : FileTree) (p : String) : Option String :=
  (tree.find? (fun f => f.1 == p)).map (fun f => f.2)

/-- One catalog entry of `PROJECT_CONFIGS` (app.py lines 39-99). -/
structure ProjectConfig where
  ptype : String
  detect : List String
  dockerfile : String
  port : Nat
deriving Repr, DecidableEq, Inhabited

def nextjsConfig : ProjectConfig :=
  { ptype := "nextjs"
    detect := ["next.config.js"]
    dockerfile := "FROM node:16\nWORKDIR /app\nCOPY package*.json ./\nRUN npm install\nCOPY . .\nRUN npm run build\nEXPOSE 3000\nCMD [\"npm\", \"run\", \"start\"]"
    port := 3000 }

def reactConfig : ProjectConfig :=
  { ptype := "react"
    detect := ["package.json", "src/App.js"]
    dockerfile := "FROM node:16\nWORKDIR /app\nCOPY package*.json ./\nRUN npm install\nCOPY . .\nRUN npm run build\nEXPOSE 3000\nCMD [\"npm\", \"start\"]"
    port := 3000 }

def nodeConfig : ProjectConfig :=
  { ptype := "node"
    detect := ["package.json"]
    dockerfile := "FROM node:16\nWORKDIR /app\nCOPY package*.json ./\nRUN npm install\nCOPY . .\nEXPOSE 3000\nCMD [\"npm\", \"start\"]"
    port := 3000 }

def pythonConfig : ProjectConfig :=
  { ptype := "python"
    detect := ["requirements.txt"]
    dockerfile := "FROM python:3.9\nWORKDIR /app\nCOPY requirements.txt ./\nRUN pip install -r requirements.txt\nCOPY . .\nEXPOSE 5000\nCMD [\"python\", \"app.py\"]"
    port := 5000 }

def staticConfig : ProjectConfig :=
  { ptype := "static"
    detect := ["index.html"]
    dockerfile := "FROM nginx:alpine\nCOPY . /usr/share/nginx/html\nEXPOSE 80\nCMD [\"nginx\", \"-g\", \"daemon off;\"]"
    port := 80 }

/-- The priority-ordered catalog (app.py `PROJECT_CONFIGS`). -/
def PROJECT_CONFIGS : List ProjectConfig :=
  [nextjsConfig, reactConfig, nodeConfig, pythonConfig, staticConfig]

/-- `all((build_dir / file).exists() for file in config.detect)`. -/
def configMatches (tree : FileTree) (config : ProjectConfig) : Bool :=
  config.detect.all (fun file => hasFile tree file)

/-- app.py `detect_project_type` (lines 136-141): first matching catalog
entry, else the last entry (`PROJECT_CONFIGS[-1]`). -/
def detect_project_type (tree : FileTree) : ProjectConfig :=
  match PROJECT_CONFIGS.find? (fun config => configMatches tree config) with
  | some config => config
  | none => PROJECT_CONFIGS.getLastD staticConfig


/-- The attempt loop of `clean_build_dir`: `fails i` says whether the i-th
delete-then-recreate attempt raises.  Returns the index of the first
successful attempt within the remaining fuel, if any. -/
def cleanAttempts (fails : Nat → Bool) : Nat → Nat → Option Nat
  | 0, _ => none
  | n + 1, i => if fails i then cleanAttempts fails n (i + 1) else some i

/-- app.py `clean_build_dir` (lines 102-113): three attempts of
delete-then-recreate; on success the directory exists and is empty; after
three failures raise `RuntimeError`.  The result carries the index of the
successful attempt. -/
def clean_build_dir (fails : Nat → Bool) (build_dir : String) : Except String Nat :=
  match cleanAttempts fails 3 0 with
  | some i => .ok i
  | none => .error ("Failed to clean build directory: " ++ build_dir)

/-- The outcome of the `git clone` subprocess: the fetched tree on exit
code 0, the stderr text otherwise. -/
inductive GitResult where
  | success (tree : FileTree)
  | failure (stderrText : String)

/-- app.py `clone_repository` (lines 116-133): classify a non-zero git
exit by its (stripped) stderr text. -/
def clone_repository (git : GitResult) : Except PyExc FileTree :=
  match git with
  | .success tree => .ok tree
  | .failure stderrText =>
      let error_msg := pystrip stderrText
      if containsSubstr error_msg "Repository not found" then
        .error (.valueError "Repository not found or private (needs access token)")
      else if containsSubstr error_msg "could not read Username" then
        .error (.valueError "Authentication failed - use HTTPS with token")
      else
        .error (.runtimeError ("Git clone failed: " ++ error_msg))

/-- Result of `urlparse` as far as the handler reads it. -/
structure UrlParts where
  scheme : String
  netloc : String
  upath : String
deriving Repr, DecidableEq

/-- Split a character list at the first colon: `(before, after)`. -/
def findColon : List Char → Option (List Char × List Char)
  | [] => none
  | c :: rest =>
      if c = ':' then some ([], rest)
      else
        match findColon rest with
        | some (a, b) => some (c :: a, b)
        | none => none

/-- Characters allowed in a URL scheme after the leading letter. -/
def isSchemeChar (c : Char) : Bool :=
  c.isAlphanum || c == '+' || c == '-' || c == '.'

/-- A candidate scheme is valid when nonempty, starting with a letter and
continuing with scheme characters (Python `urllib.parse` rule). -/
def validScheme : List Char → Bool
  | [] => false
  | c :: rest => c.isAlpha && rest.all isSchemeChar

/-- The field-splitting pass of Python `urllib.parse.urlsplit`, restricted
to the fields the handler uses: the (lower-cased) scheme before the first
colon when the text before it is a valid scheme, the authority after `//`
up to the next `/`, `?` or `#`, and the path up to `?` or `#`. -/
def splitUrl (url : String) : UrlParts :=
  let (schemeChars, rest) :=
    match findColon url.data with
    | some (a, b) => if validScheme a then (a.map Char.toLower, b) else ([], url.data)
    | none => ([], url.data)
  let (netlocChars, rest2) :=
    match rest with
    | '/' :: '/' :: r =>
        let p := r.span (fun c => c != '/' && c != '?' && c != '#')
        (p.1, p.2)
    | _ => ([], rest)
  let upathChars := rest2.takeWhile (fun c => c != '?' && c != '#')
  { scheme := ⟨schemeChars⟩, netloc := ⟨netlocChars⟩, upath := ⟨upathChars⟩ }

/-- Python `c in s` on a string. -/
def containsChar (s : String) (c : Char) : Bool := s.data.contains c

/-- Model of Python `urllib.parse.urlparse`: split the URL, then apply the
check `urlsplit` performs on the authority — a `[` without `]` (or `]`
without `[`) in the netloc raises `ValueError("Invalid IPv6 URL")`.  The
remaining stdlib raise paths are out of the modelled character set: the
NFKC netloc check fires only for non-ASCII netlocs, and the bracketed-host
validation of newer interpreter versions only for bracket pairs; both take
the same raise route as the one modelled here. -/
def urlparse (url : String) : Except PyExc UrlParts :=
  let parts := splitUrl url
  if (containsChar parts.netloc '[' && !containsChar parts.netloc ']') ||
      (containsChar parts.netloc ']' && !containsChar parts.netloc '[') then
    .error (.valueError "Invalid IPv6 URL")
  else
    .ok parts


/-- Split a character list on a separator character. -/
def splitOnCharAux (sep : Char) : List Char → List Char → List (List Char)
  | [], acc => [acc.reverse]
  | x :: rest, acc =>
      if x = sep then acc.reverse :: splitOnCharAux sep rest []
      else splitOnCharAux sep rest (x :: acc)

/-- `pathlib.PurePath(p).name`: the final meaningful path segment. -/
def pyPathName (p : String) : String :=
  match ((splitOnCharAux '/' p.data []).filter
      (fun seg => seg != [] && seg != ['.'])).getLast? with
  | some seg => ⟨seg⟩
  | none => ""

/-- Index of the last occurrence of `'.'` in the list, if any. -/
def rfindDotAux : List Char → Nat → Option Nat → Option Nat
  | [], _, acc => acc
  | c :: rest, i, acc =>
      rfindDotAux rest (i + 1) (if c = '.' then some i else acc)

/-- `pathlib.PurePath(p).stem`: the name without its final suffix; a dot at
position 0 or at the very end does not start a suffix. -/
def pyStem (p : String) : String :=
  let name := pyPathName p
  match rfindDotAux name.data 0 none with
  | some i =>
      if 0 < i ∧ i < name.data.length - 1 then ⟨name.data.take i⟩ else name
  | none => name


/-- `str.lower()` (ASCII-faithful model). -/
def pyLower (s : String) : String := ⟨s.data.map Char.toLower⟩

/-- Is the character in the class `[a-z0-9-]`? -/
def allowedChar (c : Char) : Bool :=
  ('a' ≤ c && c ≤ 'z') || ('0' ≤ c && c ≤ '9') || c == '-'

/-- `re.sub(r'[^a-z0-9-]', '-', s)`. -/
def pySub (s : String) : String :=
  ⟨s.data.map (fun c => if allowedChar c then c else '-')⟩

/-- app.py line 193: `re.sub(r'[^a-z0-9-]', '-', Path(parsed.path).stem.lower())`. -/
def repo_name_of (upath : String) : String := pySub (pyLower (pyStem upath))

/-- Modelled from the spec wording of the identifier derivation ("derive a
filesystem-safe identifier from the URL's path component (lower-cased,
non `[a-z0-9-]` characters replaced with `-`)"): the sanitisation applied
to the whole path component, with no stem extraction.  Kept separate from
`repo_name_of` (the code) for the refinement comparison of claim C9. -/
def spec_identifier (upath : String) : String := pySub (pyLower upath)


/-- The last `n` elements of a list (Python `l[-n:]`). -/
def lastN (n : Nat) (l : List α) : List α := l.drop (l.length - n)

/-- app.py lines 216-218: keep the lines that carry a non-blank `stream`
field, strip them, and keep the last 20. -/
def process_logs (build_logs : List (Option String)) : List String :=
  lastN 20 (((build_logs.filterMap id).filter
    (fun s => pystrip s != "")).map pystrip)


/-- The `image` object returned by `client.images.build`. -/
structure DockerImage where
  tags : List String
deriving Repr, DecidableEq

/-- A successful engine build: the image and the structured log lines
(each line modelled by its optional `stream` field). -/
structure DockerSuccess where
  image : DockerImage
  build_logs : List (Option String)
deriving Repr, DecidableEq

/-- Outcome of the `client.images.build` call. -/
inductive DockerResult where
  | ok (d : DockerSuccess)
  | err (e : PyExc)

/-- The HTTP request as the handler observes it: whether the JSON gate
passes and the parsed JSON object. -/
structure HttpRequest where
  json_ok : Bool
  json_data : List (String × PyVal)

/-- The external world of one request: the pre-existing state of the
workspace path, the behaviour of the clean attempts, the git subprocess
and the docker engine. -/
structure World where
  init_dir : Option FileTree
  clean_fails : Nat → Bool
  git : GitResult
  docker : DockerResult

/-- A response body: either `{"error": msg}` or the success payload. -/
inductive RespBody where
  | errorBody (msg : String)
  | successBody (image : String) (ptype : String) (port : Nat)
      (logs : List String) (run_command : String)
deriving Repr, DecidableEq

/-- What the handler produces: a response with a status code, or an
exception that escapes the handler (no `except` covers it). -/
inductive HandlerResult where
  | response (status : Nat) (body : RespBody)
  | uncaught (e : PyExc)
deriving Repr, DecidableEq

/-- Result of the inner try block (app.py lines 196-224) together with the
bookkeeping the theorems observe: the directory state it leaves behind,
which steps ran, the tag passed to the engine and the tree right after
the Dockerfile was materialised. -/
structure PipeResult where
  outcome : Except PyExc RespBody
  dir : Option FileTree
  ran_clean : Bool
  ran_clone : Bool
  ran_detect : Bool
  ran_build : Bool
  build_tag : Option String
  materialized : Option FileTree
deriving Repr

/-- Observable outcome of one `/build` request. -/
structure HandlerOutput where
  result : HandlerResult
  ws_dir : Option FileTree
  ws_path : Option String
  ran_clean : Bool
  ran_clone : Bool
  ran_detect : Bool
  ran_build : Bool
  build_tag : Option String
deriving Repr, DecidableEq

/-- The inner try block (app.py lines 196-220): clean, clone, detect,
materialize, build, assemble the success payload. -/
def run_pipeline (w : World) (build_dir repo_name : String) : PipeResult :=
  match clean_build_dir w.clean_fails build_dir with
  | .error msg =>
      { outcome := .error (.runtimeError msg), dir := w.init_dir,
        ran_clean := true, ran_clone := false, ran_detect := false,
        ran_build := false, build_tag := none, materialized := none }
  | .ok _ =>
      match clone_repository w.git with
      | .error e =>
          { outcome := .error e, dir := some [],
            ran_clean := true, ran_clone := true, ran_detect := false,
            ran_build := false, build_tag := none, materialized := none }
      | .ok tree =>
          let config := detect_project_type tree
          let tree2 := writeFile tree "Dockerfile" config.dockerfile
          let tag := "builder/" ++ repo_name ++ ":latest"
          match w.docker with
          | .err e =>
              { outcome := .error e, dir := some tree2,
                ran_clean := true, ran_clone := true, ran_detect := true,
                ran_build := true, build_tag := some tag, materialized := some tree2 }
          | .ok d =>
              match d.image.tags with
              | [] =>
                  { outcome := .error (.other "list index out of range"), dir := some tree2,
                    ran_clean := true, ran_clone := true, ran_detect := true,
                    ran_build := true, build_tag := some tag, materialized := some tree2 }
              | imageTag :: _ =>
                  { outcome := .ok (.successBody imageTag config.ptype config.port
                        (process_logs d.build_logs)
                        ("docker run -p 8080:" ++ toString config.port ++ " " ++ imageTag)),
                    dir := some tree2,
                    ran_clean := true, ran_clone := true, ran_detect := true,
                    ran_build := true, build_tag := some tag, materialized := some tree2 }

/-- The inner `except`/`finally` pair (app.py lines 222-227) wrapped
around the pipeline: every raised exception becomes a 500 response whose
body is `str(e)`, a normal return becomes a 200 response, and on both
paths the `finally` removes the workspace directory. -/
def finish_build (w : World) (build_dir repo_name : String) : HandlerOutput :=
  let pr := run_pipeline w build_dir repo_name
  match pr.outcome with
  | .ok body =>
      { result := .response 200 body, ws_dir := none, ws_path := some build_dir,
        ran_clean := pr.ran_clean, ran_clone := pr.ran_clone,
        ran_detect := pr.ran_detect, ran_build := pr.ran_build,
        build_tag := pr.build_tag }
  | .error e =>
      { result := .response 500 (.errorBody e.pystr), ws_dir := none,
        ws_path := some build_dir,
        ran_clean := pr.ran_clean, ran_clone := pr.ran_clone,
        ran_detect := pr.ran_detect, ran_build := pr.ran_build,
        build_tag := pr.build_tag }

/-- Output of a rejection before any side effect (400 responses of
app.py lines 178-191): the pre-existing directory state is untouched. -/
def rejectOutput (w : World) (msg : String) : HandlerOutput :=
  { result := .response 400 (.errorBody msg), ws_dir := w.init_dir, ws_path := none,
    ran_clean := false, ran_clone := false, ran_detect := false,
    ran_build := false, build_tag := none }

/-- Output when an exception escapes the handler (raised on app.py
line 182, before the outer try begins on line 187). -/
def uncaughtOutput (w : World) (e : PyExc) : HandlerOutput :=
  { result := .uncaught e, ws_dir := w.init_dir, ws_path := none,
    ran_clean := false, ran_clone := false, ran_detect := false,
    ran_build := false, build_tag := none }

/-- Output of the outer exception boundary (app.py lines 229-231): the
exception is logged and a generic 500 body is returned; nothing was
touched, since only lines 189-194 (and the inner handlers) sit inside
the outer try but outside the inner one. -/
def outerBoundaryOutput (w : World) : HandlerOutput :=
  { result := .response 500 (.errorBody "Internal server error"),
    ws_dir := w.init_dir, ws_path := none,
    ran_clean := false, ran_clone := false, ran_detect := false,
    ran_build := false, build_tag := none }

/-- app.py `build_image` (lines 175-231): the `/build` handler. -/
def build_image (req : HttpRequest) (w : World) : HandlerOutput :=
  if req.json_ok = false then
    rejectOutput w "Request must be JSON"
  else
    match pyStripVal (dictGet req.json_data "repo_url" (PyVal.str "")) with
    | .error e => uncaughtOutput w e
    | .ok repo_url =>
      if repo_url = "" then
        rejectOutput w "Missing repo_url"
      else
        match urlparse repo_url with
        | .error _ => outerBoundaryOutput w
        | .ok parsed =>
          if parsed.scheme = "" ∨ parsed.netloc = "" then
            rejectOutput w "Invalid repository URL"
          else
            let repo_name := repo_name_of parsed.upath
            finish_build w ("/tmp/builds/" ++ repo_name) repo_name

/-- Scenario A request: a valid repository URL. -/
def reqStatic : HttpRequest :=
  { json_ok := true
    json_data := [("repo_url", PyVal.str "https://example.com/org/my-static-site.git")] }

/-- Scenario A world: clean succeeds at once, git yields a tree holding
only `index.html`, the engine build succeeds with the requested tag. -/
def worldStatic : World :=
  { init_dir := none
    clean_fails := fun _ => false
    git := .success [("index.html", "<h1>hi</h1>")]
    docker := .ok { image := { tags := ["builder/my-static-site:latest"] }
                    build_logs := [some "Step 1/4 : FROM nginx:alpine\n", some "\n", some "Successfully built abc\n"] } }


/-- Scenario C request: `repo_url` is not an absolute URL. -/
def reqBadUrl : HttpRequest :=
  { json_ok := true, json_data := [("repo_url", PyVal.str "not-a-url")] }

/-- A valid request for a repository that will fail to fetch. -/
def reqApp : HttpRequest :=
  { json_ok := true, json_data := [("repo_url", PyVal.str "https://example.com/org/app.git")] }

/-- A world whose git subprocess reports a missing repository. -/
def worldNotFound : World :=
  { init_dir := none
    clean_fails := fun _ => false
    git := GitResult.failure "remote: Repository not found."
    docker := DockerResult.ok { image := { tags := [] }, build_logs := [] } }

/-- A world whose engine step raises an exception that is none of the
anticipated, classified failures. -/
def worldUnexpected : World :=
  { init_dir := none
    clean_fails := fun _ => false
    git := GitResult.success [("index.html", "x")]
    docker := DockerResult.err (PyExc.other "division by zero") }

/-- A JSON request whose `repo_url` is present but not a string. -/
def reqNonString : HttpRequest :=
  { json_ok := true, json_data := [("repo_url", PyVal.num 5)] }

/-- A request whose `repo_url` makes the URL parser itself raise. -/
def reqIpv6 : HttpRequest :=
  { json_ok := true, json_data := [("repo_url", PyVal.str "http://[")] }

/-- The parse of the scenario-A URL. -/
def staticParts : UrlParts :=
  { scheme := "https", netloc := "example.com", upath := "/org/my-static-site.git" }

/-- The parse of the failing-fetch URL. -/
def appParts : UrlParts :=
  { scheme := "https", netloc := "example.com", upath := "/org/app.git" }

/-! Concrete sanity checks of the embedding. -/

example : detect_project_type [("next.config.js", "x"), ("package.json", "y")] = nextjsConfig := by decide
example : detect_project_type [("index.html", "x")] = staticConfig := by decide
example : detect_project_type [] = staticConfig := by decide
example : detect_project_type [("package.json", "y")] = nodeConfig := by decide
example : splitUrl "https://example.com/org/my-static-site.git" =
    { scheme := "https", netloc := "example.com", upath := "/org/my-static-site.git" } := by decide
example : urlparse "https://example.com/org/my-static-site.git" =
    Except.ok { scheme := "https", netloc := "example.com", upath := "/org/my-static-site.git" } := by rfl
example : splitUrl "not-a-url" = { scheme := "", netloc := "", upath := "not-a-url" } := by decide
example : urlparse "not-a-url" =
    Except.ok { scheme := "", netloc := "", upath := "not-a-url" } := by rfl
example : urlparse "http://[" = Except.error (PyExc.valueError "Invalid IPv6 URL") := by rfl
example : urlparse "http://[::1]/x" =
    Except.ok { scheme := "http", netloc := "[::1]", upath := "/x" } := by rfl
example : pyStem "/org/my-static-site.git" = "my-static-site" := by decide
example : pyStem "/a/b/.git" = ".git" := by decide
example : pyStem "" = "" := by decide
example : repo_name_of "/org/my-static-site.git" = "my-static-site" := by decide
example : spec_identifier "/org/my-static-site.git" = "-org-my-static-site-git" := by decide
example : process_logs [some " a ", none, some "  ", some "b"] = ["a", "b"] := by decide
example : (process_logs ((List.range 50).map (fun i => some (toString i)))).length = 20 := by decide
example : (build_image reqStatic worldStatic).result =
    .response 200 (.successBody "builder/my-static-site:latest" "static" 80
      ["Step 1/4 : FROM nginx:alpine", "Successfully built abc"]
      "docker run -p 8080:80 builder/my-static-site:latest") := by decide
example : (build_image reqStatic worldStatic).ws_dir = none := by decide
example : (build_image reqStatic worldStatic).build_tag = some "builder/my-static-site:latest" := by decide

/-! ### Helper lemmas -/

lemma clean_ok_of_or {fails : Nat → Bool} (bd : String)
    (h : fails 0 = false ∨ fails 1 = false ∨ fails 2 = false) :
    ∃ k, clean_build_dir fails bd = Except.ok k := by
  by_cases h0 : fails 0
  · by_cases h1 : fails 1
    · by_cases h2 : fails 2
      · simp [h0, h1, h2] at h
      · exact ⟨2, by simp [clean_build_dir, cleanAttempts, h0, h1,
          Bool.eq_false_iff.mp (Bool.not_eq_true _ ▸ h2)]⟩
    · exact ⟨1, by simp [clean_build_dir, cleanAttempts, h0,
        Bool.eq_false_iff.mp (Bool.not_eq_true _ ▸ h1)]⟩
  · exact ⟨0, by simp [clean_build_dir, cleanAttempts,
      Bool.eq_false_iff.mp (Bool.not_eq_true _ ▸ h0)]⟩

lemma or_of_exists_lt3 {fails : Nat → Bool}
    (h : ∃ i, i < 3 ∧ fails i = false) :
    fails 0 = false ∨ fails 1 = false ∨ fails 2 = false := by
  obtain ⟨i, hi, hf⟩ := h
  interval_cases i
  · exact Or.inl hf
  · exact Or.inr (Or.inl hf)
  · exact Or.inr (Or.inr hf)

lemma clean_err_of_all {fails : Nat → Bool} (bd : String)
    (h0 : fails 0 = true) (h1 : fails 1 = true) (h2 : fails 2 = true) :
    clean_build_dir fails bd = Except.error ("Failed to clean build directory: " ++ bd) := by
  simp [clean_build_dir, cleanAttempts, h0, h1, h2]

/-- Under the validation hypotheses the handler reduces to the inner
pipeline wrapped in its `except`/`finally` pair. -/
lemma build_image_valid (req : HttpRequest) (w : World) (s : String) (u : UrlParts)
    (h1 : req.json_ok = true)
    (h2 : dictGet req.json_data "repo_url" (PyVal.str "") = PyVal.str s)
    (h3 : ¬ pystrip s = "")
    (hok : urlparse (pystrip s) = Except.ok u)
    (h4 : ¬ u.scheme = "")
    (h5 : ¬ u.netloc = "") :
    build_image req w =
      finish_build w ("/tmp/builds/" ++ repo_name_of u.upath)
        (repo_name_of u.upath) := by
  unfold build_image
  rw [h2]
  simp only [pyStripVal, h1, hok]
  rw [if_neg (by simp), if_neg h3, if_neg (by push_neg; exact ⟨h4, h5⟩)]

lemma finish_build_ws_dir (w : World) (bd rn : String) :
    (finish_build w bd rn).ws_dir = none := by
  unfold finish_build
  cases h : (run_pipeline w bd rn).outcome <;> simp [h]

lemma finish_build_ws_path (w : World) (bd rn : String) :
    (finish_build w bd rn).ws_path = some bd := by
  unfold finish_build
  cases h : (run_pipeline w bd rn).outcome <;> simp [h]

/-- Pipeline outcome when the clean step succeeds and the clone raises. -/
lemma finish_build_clone_error (w : World) (bd rn : String) (e : PyExc)
    (hc : w.clean_fails 0 = false ∨ w.clean_fails 1 = false ∨ w.clean_fails 2 = false)
    (hg : clone_repository w.git = Except.error e) :
    (finish_build w bd rn).result = HandlerResult.response 500 (RespBody.errorBody e.pystr) := by
  obtain ⟨k, hk⟩ := clean_ok_of_or bd hc
  unfold finish_build run_pipeline
  simp [hk, hg]

/-- Pipeline outcome when clean and clone succeed and the engine raises. -/
lemma finish_build_docker_error (w : World) (bd rn : String) (tree : FileTree) (e : PyExc)
    (hc : w.clean_fails 0 = false ∨ w.clean_fails 1 = false ∨ w.clean_fails 2 = false)
    (hg : clone_repository w.git = Except.ok tree)
    (hd : w.docker = DockerResult.err e) :
    (finish_build w bd rn).result = HandlerResult.response 500 (RespBody.errorBody e.pystr) ∧
    (finish_build w bd rn).build_tag = some ("builder/" ++ rn ++ ":latest") := by
  obtain ⟨k, hk⟩ := clean_ok_of_or bd hc
  unfold finish_build run_pipeline
  simp [hk, hg, hd]

/-- Pipeline outcome on the success path. -/
lemma finish_build_success (w : World) (bd rn : String) (tree : FileTree)
    (d : DockerSuccess) (imageTag : String) (rest : List String)
    (hc : w.clean_fails 0 = false ∨ w.clean_fails 1 = false ∨ w.clean_fails 2 = false)
    (hg : clone_repository w.git = Except.ok tree)
    (hd : w.docker = DockerResult.ok d)
    (ht : d.image.tags = imageTag :: rest) :
    (finish_build w bd rn).result = HandlerResult.response 200
      (RespBody.successBody imageTag (detect_project_type tree).ptype
        (detect_project_type tree).port (process_logs d.build_logs)
        ("docker run -p 8080:" ++ toString (detect_project_type tree).port ++ " " ++ imageTag)) ∧
    (finish_build w bd rn).build_tag = some ("builder/" ++ rn ++ ":latest") := by
  obtain ⟨k, hk⟩ := clean_ok_of_or bd hc
  unfold finish_build run_pipeline
  simp [hk, hg, hd, ht]

/-- The tree recorded right after materialisation, on any path where the
clone succeeded. -/
lemma run_pipeline_materialized (w : World) (bd rn : String) (tree : FileTree)
    (hc : w.clean_fails 0 = false ∨ w.clean_fails 1 = false ∨ w.clean_fails 2 = false)
    (hg : clone_repository w.git = Except.ok tree) :
    (run_pipeline w bd rn).materialized =
      some (writeFile tree "Dockerfile" (detect_project_type tree).dockerfile) := by
  obtain ⟨k, hk⟩ := clean_ok_of_or bd hc
  unfold run_pipeline
  cases hd : w.docker with
  | err e => simp [hk, hg, hd]
  | ok d =>
    cases ht : d.image.tags with
    | nil => simp [hk, hg, hd, ht]
    | cons a b => simp [hk, hg, hd, ht]

/-- `find?` returns the element at the first index whose predicate holds. -/
lemma find?_eq_get_of_first {α : Type} (p : α → Bool) :
    ∀ (l : List α) (i : Nat) (hi : i < l.length),
      p (l.get ⟨i, hi⟩) = true →
      (∀ j (hj : j < l.length), j < i → p (l.get ⟨j, hj⟩) = false) →
      l.find? p = some (l.get ⟨i, hi⟩) := by
  intro l
  induction l with
  | nil => intro i hi; exact absurd hi (by simp)
  | cons a t ih =>
    intro i hi hp hprev
    cases i with
    | zero =>
      simp only [List.get] at hp
      simp [List.find?_cons_of_pos _ hp]
    | succ n =>
      have ha : p a = false := hprev 0 (by simp) (Nat.succ_pos n)
      rw [List.find?_cons_of_neg _ (by simp [ha])]
      exact ih n (by simpa using hi) (by simpa using hp)
        (fun j hj hji => hprev (j + 1) (by simpa using hj) (by omega))

/-- The processed log list is the 20-line tail of the stripped non-blank
stream lines. -/
lemma process_logs_spec (build_logs : List (Option String)) :
    (process_logs build_logs).length ≤ 20 ∧
    List.IsSuffix (process_logs build_logs)
      (((build_logs.filterMap id).filter (fun s => pystrip s != "")).map pystrip) ∧
    (∀ s ∈ process_logs build_logs, s ≠ "" ∧ ∃ t, some t ∈ build_logs ∧ s = pystrip t) := by
  refine ⟨?_, ?_, ?_⟩
  · simp only [process_logs, lastN, List.length_drop]
    omega
  · exact List.drop_suffix _ _
  · intro s hs
    have hmem : s ∈ ((build_logs.filterMap id).filter (fun t => pystrip t != "")).map pystrip :=
      (List.drop_suffix _ _).subset hs
    rw [List.mem_map] at hmem
    obtain ⟨t, ht, rfl⟩ := hmem
    rw [List.mem_filter] at ht
    obtain ⟨htm, hne⟩ := ht
    refine ⟨by simpa using hne, t, ?_, rfl⟩
    rw [List.mem_filterMap] at htm
    obtain ⟨a, ha, hat⟩ := htm
    simpa [← hat] using ha

/-! ### Claim theorems -/

/-- C3: classification is a total, deterministic, order-sensitive function
of the source tree: it scans the catalog in priority order, an entry
matches iff all its declared relative paths exist under the tree root,
the first match wins, and when nothing matches the last (static) entry is
returned; a tree containing both `next.config.js` and `package.json`
yields the nextjs entry (port 3000), and a tree containing only
`index.html` yields the static entry (port 80). -/
theorem detect_project_type_first_match_or_static (tree : FileTree) :
    detect_project_type tree ∈ PROJECT_CONFIGS ∧
    (∀ (i : Nat) (hi : i < PROJECT_CONFIGS.length),
      configMatches tree (PROJECT_CONFIGS.get ⟨i, hi⟩) = true →
      (∀ (j : Nat) (hj : j < PROJECT_CONFIGS.length), j < i →
        configMatches tree (PROJECT_CONFIGS.get ⟨j, hj⟩) = false) →
      detect_project_type tree = PROJECT_CONFIGS.get ⟨i, hi⟩) ∧
    ((∀ config ∈ PROJECT_CONFIGS, configMatches tree config = false) →
      detect_project_type tree = staticConfig) ∧
    (hasFile tree "next.config.js" = true → hasFile tree "package.json" = true →
      detect_project_type tree = nextjsConfig ∧ (detect_project_type tree).port = 3000) ∧
    ((∀ f ∈ tree, f.1 = "index.html") → hasFile tree "index.html" = true →
      detect_project_type tree = staticConfig ∧ (detect_project_type tree).port = 80) := by
  refine ⟨?_, ?_, ?_, ?_, ?_⟩
  · unfold detect_project_type
    cases h : PROJECT_CONFIGS.find? (fun config => configMatches tree config) with
    | some config => exact List.mem_of_find?_eq_some h
    | none => decide
  · intro i hi hp hprev
    unfold detect_project_type
    rw [find?_eq_get_of_first _ PROJECT_CONFIGS i hi hp (fun j hj hji => hprev j hj hji)]
  · intro hall
    unfold detect_project_type
    rw [List.find?_eq_none.mpr (fun config hc => by simp [hall config hc])]
    decide
  · intro hnext _
    have hm : configMatches tree nextjsConfig = true := by
      simp [configMatches, nextjsConfig, hasFile] at hnext ⊢
      exact hnext
    constructor
    · unfold detect_project_type PROJECT_CONFIGS
      rw [List.find?_cons_of_pos _ hm]
    · unfold detect_project_type PROJECT_CONFIGS
      rw [List.find?_cons_of_pos _ hm]
      decide
  · intro honly hidx
    have hno : ∀ f : String, f ≠ "index.html" → hasFile tree f = false := by
      intro f hf
      rw [hasFile, List.any_eq_false]
      intro x hx
      have hx1 := honly x hx
      simp [hx1]
      exact fun h => hf h.symm
    have h0 : configMatches tree nextjsConfig = false := by
      simp [configMatches, nextjsConfig, hno "next.config.js" (by decide)]
    have h1 : configMatches tree reactConfig = false := by
      simp [configMatches, reactConfig, hno "package.json" (by decide)]
    have h2 : configMatches tree nodeConfig = false := by
      simp [configMatches, nodeConfig, hno "package.json" (by decide)]
    have h3 : configMatches tree pythonConfig = false := by
      simp [configMatches, pythonConfig, hno "requirements.txt" (by decide)]
    have h4 : configMatches tree staticConfig = true := by
      simp [configMatches, staticConfig, hidx]
    constructor
    · unfold detect_project_type PROJECT_CONFIGS
      rw [List.find?_cons_of_neg _ (by simp [h0]), List.find?_cons_of_neg _ (by simp [h1]),
        List.find?_cons_of_neg _ (by simp [h2]), List.find?_cons_of_neg _ (by simp [h3]),
        List.find?_cons_of_pos _ h4]
    · unfold detect_project_type PROJECT_CONFIGS
      rw [List.find?_cons_of_neg _ (by simp [h0]), List.find?_cons_of_neg _ (by simp [h1]),
        List.find?_cons_of_neg _ (by simp [h2]), List.find?_cons_of_neg _ (by simp [h3]),
        List.find?_cons_of_pos _ h4]
      decide

/-- Witness for C3 at concrete trees. -/
theorem detect_project_type_first_match_or_static_witness :
    (detect_project_type [("index.html", "x")] = staticConfig ∧
      (detect_project_type [("index.html", "x")]).port = 80) ∧
    (detect_project_type [("next.config.js", "c"), ("package.json", "p")] = nextjsConfig ∧
      (detect_project_type [("next.config.js", "c"), ("package.json", "p")]).port = 3000) :=
  ⟨(detect_project_type_first_match_or_static [("index.html", "x")]).2.2.2.2
      (by decide) (by decide),
   (detect_project_type_first_match_or_static [("next.config.js", "c"), ("package.json", "p")]).2.2.2.1
      (by decide) (by decide)⟩

/-- C6: workspace preparation attempts the delete-then-recreate operation
at most 3 times (the outcome depends only on the first three attempt
results), returns at the first attempt that succeeds within the bound,
and raises the fatal workspace error iff all 3 attempts fail; the fatal
error aborts the pipeline before the clone step. -/
theorem clean_build_dir_retry_bound (fails : Nat → Bool) (bd : String) :
    (∀ g : Nat → Bool, (∀ i, i < 3 → fails i = g i) →
      clean_build_dir fails bd = clean_build_dir g bd) ∧
    (∀ k, clean_build_dir fails bd = Except.ok k →
      k < 3 ∧ fails k = false ∧ ∀ j, j < k → fails j = true) ∧
    ((∃ i, i < 3 ∧ fails i = false) → ∃ k, clean_build_dir fails bd = Except.ok k) ∧
    (clean_build_dir fails bd = Except.error ("Failed to clean build directory: " ++ bd) ↔
      fails 0 = true ∧ fails 1 = true ∧ fails 2 = true) ∧
    (∀ (w : World) (rn : String), w.clean_fails = fails →
      fails 0 = true → fails 1 = true → fails 2 = true →
      (run_pipeline w bd rn).outcome =
        Except.error (PyExc.runtimeError ("Failed to clean build directory: " ++ bd)) ∧
      (run_pipeline w bd rn).ran_clone = false) := by
  refine ⟨?_, ?_, ?_, ?_, ?_⟩
  · intro g hg
    simp only [clean_build_dir, cleanAttempts,
      ← hg 0 (by omega), ← hg 1 (by omega), ← hg 2 (by omega)]
  · intro k hk
    cases h0 : fails 0 with
    | false =>
      have he : clean_build_dir fails bd = Except.ok 0 := by
        simp [clean_build_dir, cleanAttempts, h0]
      rw [he] at hk
      obtain rfl : (0 : Nat) = k := by simpa using hk
      exact ⟨by omega, h0, fun j hj => absurd hj (by omega)⟩
    | true =>
      cases h1 : fails 1 with
      | false =>
        have he : clean_build_dir fails bd = Except.ok 1 := by
          simp [clean_build_dir, cleanAttempts, h0, h1]
        rw [he] at hk
        obtain rfl : (1 : Nat) = k := by simpa using hk
        refine ⟨by omega, h1, fun j hj => ?_⟩
        interval_cases j
        exact h0
      | true =>
        cases h2 : fails 2 with
        | false =>
          have he : clean_build_dir fails bd = Except.ok 2 := by
            simp [clean_build_dir, cleanAttempts, h0, h1, h2]
          rw [he] at hk
          obtain rfl : (2 : Nat) = k := by simpa using hk
          refine ⟨by omega, h2, fun j hj => ?_⟩
          interval_cases j
          · exact h0
          · exact h1
        | true =>
          rw [clean_err_of_all bd h0 h1 h2] at hk
          exact absurd hk (by simp)
  · intro hex
    exact clean_ok_of_or bd (or_of_exists_lt3 hex)
  · constructor
    · intro herr
      cases h0 : fails 0 with
      | false =>
        have he : clean_build_dir fails bd = Except.ok 0 := by
          simp [clean_build_dir, cleanAttempts, h0]
        rw [he] at herr
        exact absurd herr (by simp)
      | true =>
        cases h1 : fails 1 with
        | false =>
          have he : clean_build_dir fails bd = Except.ok 1 := by
            simp [clean_build_dir, cleanAttempts, h0, h1]
          rw [he] at herr
          exact absurd herr (by simp)
        | true =>
          cases h2 : fails 2 with
          | false =>
            have he : clean_build_dir fails bd = Except.ok 2 := by
              simp [clean_build_dir, cleanAttempts, h0, h1, h2]
            rw [he] at herr
            exact absurd herr (by simp)
          | true => exact ⟨rfl, rfl, rfl⟩
    · rintro ⟨h0, h1, h2⟩
      exact clean_err_of_all bd h0 h1 h2
  · intro w rn hw h0 h1 h2
    have he := @clean_err_of_all fails bd h0 h1 h2
    unfold run_pipeline
    rw [hw, he]
    exact ⟨rfl, rfl⟩

/-- Witness for C6: a run whose first two attempts fail succeeds at the
third; a run whose three attempts fail raises the fatal error. -/
theorem clean_build_dir_retry_bound_witness :
    (∃ k, clean_build_dir (fun i => decide (i < 2)) "/tmp/builds/demo" = Except.ok k) ∧
    clean_build_dir (fun _ => true) "/tmp/builds/demo" =
      Except.error ("Failed to clean build directory: " ++ "/tmp/builds/demo") :=
  ⟨(clean_build_dir_retry_bound (fun i => decide (i < 2)) "/tmp/builds/demo").2.2.1
      ⟨2, by decide, by decide⟩,
   ((clean_build_dir_retry_bound (fun _ => true) "/tmp/builds/demo").2.2.2.1).mpr
      ⟨rfl, rfl, rfl⟩⟩

/-- C7: after materialization the Dockerfile at the workspace's build-file
path is byte-for-byte the matched catalog entry's template, overwriting
any Dockerfile the fetched tree already contained there. -/
theorem dockerfile_written_verbatim (tree : FileTree) (config : ProjectConfig)
    (w : World) (bd rn : String) :
    readFile (writeFile tree "Dockerfile" config.dockerfile) "Dockerfile" =
      some config.dockerfile ∧
    ((w.clean_fails 0 = false ∨ w.clean_fails 1 = false ∨ w.clean_fails 2 = false) →
      clone_repository w.git = Except.ok tree →
      ∀ m, (run_pipeline w bd rn).materialized = some m →
        readFile m "Dockerfile" = some (detect_project_type tree).dockerfile) := by
  have hrw : ∀ (t : FileTree) (c : String),
      readFile (writeFile t "Dockerfile" c) "Dockerfile" = some c := by
    intro t c
    rw [writeFile, readFile, List.find?_cons_of_pos _ (by simp)]
    rfl
  refine ⟨hrw tree config.dockerfile, ?_⟩
  intro hc hg m hm
  rw [run_pipeline_materialized w bd rn tree hc hg] at hm
  obtain rfl : writeFile tree "Dockerfile" (detect_project_type tree).dockerfile = m := by
    simpa using hm
  exact hrw tree (detect_project_type tree).dockerfile

/-- Witness for C7: in scenario A the materialised tree carries exactly
the static template, although the fetched tree is inspected concretely. -/
theorem dockerfile_written_verbatim_witness :
    readFile (writeFile [("Dockerfile", "old contents")] "Dockerfile"
        staticConfig.dockerfile) "Dockerfile" = some staticConfig.dockerfile ∧
    readFile (writeFile [("index.html", "<h1>hi</h1>")] "Dockerfile"
        (detect_project_type [("index.html", "<h1>hi</h1>")]).dockerfile) "Dockerfile" =
      some (detect_project_type [("index.html", "<h1>hi</h1>")]).dockerfile :=
  ⟨(dockerfile_written_verbatim [("Dockerfile", "old contents")] staticConfig
      worldStatic "/tmp/builds/my-static-site" "my-static-site").1,
   (dockerfile_written_verbatim [("index.html", "<h1>hi</h1>")] staticConfig
      worldStatic "/tmp/builds/my-static-site" "my-static-site").2
      (Or.inl rfl) rfl
      (writeFile [("index.html", "<h1>hi</h1>")] "Dockerfile"
        (detect_project_type [("index.html", "<h1>hi</h1>")]).dockerfile)
      (run_pipeline_materialized worldStatic "/tmp/builds/my-static-site" "my-static-site"
        [("index.html", "<h1>hi</h1>")] (Or.inl rfl) rfl)⟩

/-- C8: every successful `/build` response carries at most 20 log lines,
each a non-empty stripped `stream` line, taken as the tail of the
filtered build output in order. -/
theorem success_logs_bounded_tail (req : HttpRequest) (w : World) (s : String)
    (u : UrlParts) (tree : FileTree) (d : DockerSuccess) (imageTag : String) (rest : List String)
    (h1 : req.json_ok = true)
    (h2 : dictGet req.json_data "repo_url" (PyVal.str "") = PyVal.str s)
    (h3 : ¬ pystrip s = "")
    (hok : urlparse (pystrip s) = Except.ok u)
    (h4 : ¬ u.scheme = "")
    (h5 : ¬ u.netloc = "")
    (hc : w.clean_fails 0 = false ∨ w.clean_fails 1 = false ∨ w.clean_fails 2 = false)
    (hg : clone_repository w.git = Except.ok tree)
    (hd : w.docker = DockerResult.ok d)
    (ht : d.image.tags = imageTag :: rest) :
    (build_image req w).result = HandlerResult.response 200
      (RespBody.successBody imageTag (detect_project_type tree).ptype
        (detect_project_type tree).port (process_logs d.build_logs)
        ("docker run -p 8080:" ++ toString (detect_project_type tree).port ++ " " ++ imageTag)) ∧
    (process_logs d.build_logs).length ≤ 20 ∧
    List.IsSuffix (process_logs d.build_logs)
      (((d.build_logs.filterMap id).filter (fun t => pystrip t != "")).map pystrip) ∧
    (∀ line ∈ process_logs d.build_logs,
      line ≠ "" ∧ ∃ t, some t ∈ d.build_logs ∧ line = pystrip t) := by
  have hs := process_logs_spec d.build_logs
  rw [build_image_valid req w s u h1 h2 h3 hok h4 h5]
  exact ⟨(finish_build_success w _ _ tree d imageTag rest hc hg hd ht).1,
    hs.1, hs.2.1, hs.2.2⟩

/-- Witness for C8 at the concrete scenario-A request and world. -/
theorem success_logs_bounded_tail_witness :
    (process_logs [some "Step 1/4 : FROM nginx:alpine\n", some "\n",
        some "Successfully built abc\n"]).length ≤ 20 ∧
    (build_image reqStatic worldStatic).result = HandlerResult.response 200
      (RespBody.successBody "builder/my-static-site:latest"
        (detect_project_type [("index.html", "<h1>hi</h1>")]).ptype
        (detect_project_type [("index.html", "<h1>hi</h1>")]).port
        (process_logs [some "Step 1/4 : FROM nginx:alpine\n", some "\n",
          some "Successfully built abc\n"])
        ("docker run -p 8080:" ++
          toString (detect_project_type [("index.html", "<h1>hi</h1>")]).port ++
          " " ++ "builder/my-static-site:latest")) :=
  have h := success_logs_bounded_tail reqStatic worldStatic
    "https://example.com/org/my-static-site.git" staticParts [("index.html", "<h1>hi</h1>")]
    { image := { tags := ["builder/my-static-site:latest"] }
      build_logs := [some "Step 1/4 : FROM nginx:alpine\n", some "\n",
        some "Successfully built abc\n"] }
    "builder/my-static-site:latest" []
    rfl (by decide) (by decide) (by rfl) (by decide) (by decide) (Or.inl rfl) rfl rfl rfl
  ⟨h.2.1, h.1⟩

/-- C2: for every request that passes URL validation, the workspace
directory is removed before the response is returned, on every exit path
(success, classified failure, unexpected exception): after the request
the directory no longer exists. -/
theorem workspace_removed_every_exit (req : HttpRequest) (w : World) (s : String)
    (u : UrlParts)
    (h1 : req.json_ok = true)
    (h2 : dictGet req.json_data "repo_url" (PyVal.str "") = PyVal.str s)
    (h3 : ¬ pystrip s = "")
    (hok : urlparse (pystrip s) = Except.ok u)
    (h4 : ¬ u.scheme = "")
    (h5 : ¬ u.netloc = "") :
    (build_image req w).ws_dir = none := by
  rw [build_image_valid req w s u h1 h2 h3 hok h4 h5]
  exact finish_build_ws_dir w _ _

/-- Witness for C2: cleanup holds concretely both on a success world and
on a world whose fetch fails with an authentication error (scenario D),
even with a stale directory present beforehand. -/
theorem workspace_removed_every_exit_witness :
    (build_image reqStatic worldStatic).ws_dir = none ∧
    (build_image reqStatic
      { init_dir := some [("stale.txt", "old")]
        clean_fails := fun _ => false
        git := GitResult.failure "fatal: could not read Username for host"
        docker := DockerResult.ok { image := { tags := [] }, build_logs := [] } }).ws_dir = none :=
  ⟨workspace_removed_every_exit reqStatic worldStatic
      "https://example.com/org/my-static-site.git" staticParts
      rfl (by decide) (by decide) (by rfl) (by decide) (by decide),
   workspace_removed_every_exit reqStatic
      { init_dir := some [("stale.txt", "old")]
        clean_fails := fun _ => false
        git := GitResult.failure "fatal: could not read Username for host"
        docker := DockerResult.ok { image := { tags := [] }, build_logs := [] } }
      "https://example.com/org/my-static-site.git" staticParts
      rfl (by decide) (by decide) (by rfl) (by decide) (by decide)⟩

/-- Counterexample to C4 as stated: for `repo_url = "http://["` the URL
parser itself raises `ValueError("Invalid IPv6 URL")` on app.py line 189,
inside the outer try, so the outer boundary (lines 229-231) answers 500
with the generic body — not a 400 client error — although the input does
not parse as an absolute URL with scheme and host. -/
theorem invalid_input_client_error_counterexample :
    urlparse "http://[" = Except.error (PyExc.valueError "Invalid IPv6 URL") ∧
    (build_image reqIpv6 worldStatic).result =
      HandlerResult.response 500 (RespBody.errorBody "Internal server error") ∧
    (build_image reqIpv6 worldStatic).result ≠
      HandlerResult.response 400 (RespBody.errorBody "Invalid repository URL") ∧
    ¬ (400 ≤ 500 ∧ 500 < 500) := by
  exact ⟨by rfl, by decide, by decide, by decide⟩

/-- C4 amended: a request that is not JSON, or whose `repo_url` is
missing or empty, or parses (without raising) but lacks a scheme or a
host, is answered 400; a `repo_url` on which the URL parser raises (for
example `"http://["`, Invalid IPv6 URL) is instead answered by the outer
boundary with the generic server error 500.  In all these cases the
rejection happens before any side effect: no workspace directory is
touched and clean, clone, detect and build are never invoked. -/
theorem invalid_input_rejected_before_side_effects_amended
    (req : HttpRequest) (w : World) :
    ((req.json_ok = false ∨
      ∃ s, dictGet req.json_data "repo_url" (PyVal.str "") = PyVal.str s ∧
        (pystrip s = "" ∨ ∃ u, urlparse (pystrip s) = Except.ok u ∧
          (u.scheme = "" ∨ u.netloc = ""))) →
      (∃ msg, (build_image req w).result = HandlerResult.response 400 (RespBody.errorBody msg)) ∧
      (build_image req w).ws_dir = w.init_dir ∧
      (build_image req w).ws_path = none ∧
      (build_image req w).ran_clean = false ∧
      (build_image req w).ran_clone = false ∧
      (build_image req w).ran_detect = false ∧
      (build_image req w).ran_build = false) ∧
    (∀ (s : String) (e : PyExc), req.json_ok = true →
      dictGet req.json_data "repo_url" (PyVal.str "") = PyVal.str s →
      ¬ pystrip s = "" →
      urlparse (pystrip s) = Except.error e →
      (build_image req w).result =
        HandlerResult.response 500 (RespBody.errorBody "Internal server error") ∧
      (build_image req w).ws_dir = w.init_dir ∧
      (build_image req w).ws_path = none ∧
      (build_image req w).ran_clean = false ∧
      (build_image req w).ran_clone = false ∧
      (build_image req w).ran_detect = false ∧
      (build_image req w).ran_build = false) := by
  constructor
  · intro h
    have hb : ∃ msg, build_image req w = rejectOutput w msg := by
      cases hq : req.json_ok with
      | false =>
        exact ⟨"Request must be JSON", by unfold build_image; rw [if_pos hq]⟩
      | true =>
        rcases h with h | ⟨s, hs, hcase⟩
        · exact absurd hq (by simp [h])
        · by_cases hemp : pystrip s = ""
          · refine ⟨"Missing repo_url", ?_⟩
            unfold build_image
            rw [hs]
            simp only [pyStripVal, hq]
            rw [if_neg (by simp), if_pos hemp]
          · obtain ⟨u, hoku, hinv⟩ : ∃ u, urlparse (pystrip s) = Except.ok u ∧
                (u.scheme = "" ∨ u.netloc = "") := by
              rcases hcase with hc | hc
              · exact absurd hc hemp
              · exact hc
            refine ⟨"Invalid repository URL", ?_⟩
            unfold build_image
            rw [hs]
            simp only [pyStripVal, hq, hoku]
            rw [if_neg (by simp), if_neg hemp, if_pos hinv]
    obtain ⟨msg, hb⟩ := hb
    rw [hb]
    exact ⟨⟨msg, rfl⟩, rfl, rfl, rfl, rfl, rfl, rfl⟩
  · intro s e hq hs hemp herr
    have hb : build_image req w = outerBoundaryOutput w := by
      unfold build_image
      rw [hs]
      simp only [pyStripVal, hq, herr]
      rw [if_neg (by simp), if_neg hemp]
    rw [hb]
    exact ⟨rfl, rfl, rfl, rfl, rfl, rfl, rfl⟩

/-- Witness for the amended C4: the non-parsing scenario-C request is
rejected 400 with no side effect; the parser-raising request is answered
by the outer boundary, also with no side effect. -/
theorem invalid_input_rejected_before_side_effects_amended_witness :
    ((build_image reqBadUrl worldStatic).ws_dir = worldStatic.init_dir ∧
      (build_image reqBadUrl worldStatic).ran_clone = false ∧
      (build_image reqBadUrl worldStatic).ran_build = false) ∧
    ((build_image reqIpv6 worldStatic).result =
        HandlerResult.response 500 (RespBody.errorBody "Internal server error") ∧
      (build_image reqIpv6 worldStatic).ran_clone = false) :=
  have h1 := (invalid_input_rejected_before_side_effects_amended reqBadUrl worldStatic).1
    (Or.inr ⟨"not-a-url", by decide,
      Or.inr ⟨{ scheme := "", netloc := "", upath := "not-a-url" }, by rfl, Or.inl rfl⟩⟩)
  have h2 := (invalid_input_rejected_before_side_effects_amended reqIpv6 worldStatic).2
    "http://[" (PyExc.valueError "Invalid IPv6 URL") rfl (by decide) (by decide) (by rfl)
  ⟨⟨h1.2.1, h1.2.2.2.2.1, h1.2.2.2.2.2.2⟩, ⟨h2.1, h2.2.2.2.2.1⟩⟩

/-- Counterexample to C1 as stated: when the fetch tool reports
"repository not found" the handler returns status 500 (the inner except
block, app.py line 224), which is not a 4xx client error, although the
message does say "not found or private". -/
theorem fetch_notfound_is_client_error_counterexample :
    (build_image reqApp worldNotFound).result = HandlerResult.response 500
      (RespBody.errorBody "Repository not found or private (needs access token)") ∧
    ¬ (400 ≤ 500 ∧ 500 < 500) := by
  exact ⟨by decide, by decide⟩

/-- C1 amended: those fetch failures are answered with status 500 (not
4xx), with a message indicating "not found or private" in the not-found
case and mentioning authentication in the auth case. -/
theorem fetch_notfound_auth_mapped_amended (req : HttpRequest) (w : World) (s st : String)
    (u : UrlParts)
    (h1 : req.json_ok = true)
    (h2 : dictGet req.json_data "repo_url" (PyVal.str "") = PyVal.str s)
    (h3 : ¬ pystrip s = "")
    (hok : urlparse (pystrip s) = Except.ok u)
    (h4 : ¬ u.scheme = "")
    (h5 : ¬ u.netloc = "")
    (hc : w.clean_fails 0 = false ∨ w.clean_fails 1 = false ∨ w.clean_fails 2 = false)
    (hg : w.git = GitResult.failure st) :
    (containsSubstr (pystrip st) "Repository not found" = true →
      (build_image req w).result = HandlerResult.response 500
        (RespBody.errorBody "Repository not found or private (needs access token)") ∧
      containsSubstr "Repository not found or private (needs access token)"
        "not found or private" = true) ∧
    (containsSubstr (pystrip st) "Repository not found" = false →
      containsSubstr (pystrip st) "could not read Username" = true →
      (build_image req w).result = HandlerResult.response 500
        (RespBody.errorBody "Authentication failed - use HTTPS with token") ∧
      containsSubstr "Authentication failed - use HTTPS with token"
        "Authentication" = true) := by
  constructor
  · intro hnf
    have hcl : clone_repository w.git =
        Except.error (PyExc.valueError "Repository not found or private (needs access token)") := by
      rw [hg]
      simp [clone_repository, hnf]
    rw [build_image_valid req w s u h1 h2 h3 hok h4 h5]
    exact ⟨finish_build_clone_error w _ _ _ hc hcl, by decide⟩
  · intro hnf hau
    have hcl : clone_repository w.git =
        Except.error (PyExc.valueError "Authentication failed - use HTTPS with token") := by
      rw [hg]
      simp [clone_repository, hnf, hau]
    rw [build_image_valid req w s u h1 h2 h3 hok h4 h5]
    exact ⟨finish_build_clone_error w _ _ _ hc hcl, by decide⟩

/-- Witness for the amended C1 at the concrete not-found world. -/
theorem fetch_notfound_auth_mapped_amended_witness :
    (build_image reqApp worldNotFound).result = HandlerResult.response 500
      (RespBody.errorBody "Repository not found or private (needs access token)") ∧
    containsSubstr "Repository not found or private (needs access token)"
      "not found or private" = true :=
  (fetch_notfound_auth_mapped_amended reqApp worldNotFound
      "https://example.com/org/app.git" "remote: Repository not found." appParts
      rfl (by decide) (by decide) (by rfl) (by decide) (by decide) (Or.inl rfl) rfl).1 (by decide)


/-- Counterexample to C5 as stated: an unanticipated exception raised
inside the pipeline is caught by the inner except block (app.py line 222)
and its own diagnostic text is returned to the caller, not the generic
"Internal server error" body. -/
theorem unexpected_error_generic_body_counterexample :
    (build_image reqApp worldUnexpected).result =
      HandlerResult.response 500 (RespBody.errorBody "division by zero") ∧
    RespBody.errorBody "division by zero" ≠ RespBody.errorBody "Internal server error" := by
  exact ⟨by decide, by decide⟩

/-- C5 amended: any exception raised inside the pipeline block — whether
an anticipated classified failure or not — is returned as a 500 whose
body is the exception's own message (`str(e)`); the generic "Internal
server error" body is produced only by the outer boundary, which covers
just the code outside the inner try (app.py lines 187-194 and the inner
handlers themselves). -/
theorem pipeline_error_own_message_amended (req : HttpRequest) (w : World) (s : String)
    (u : UrlParts) (tree : FileTree) (e : PyExc)
    (h1 : req.json_ok = true)
    (h2 : dictGet req.json_data "repo_url" (PyVal.str "") = PyVal.str s)
    (h3 : ¬ pystrip s = "")
    (hok : urlparse (pystrip s) = Except.ok u)
    (h4 : ¬ u.scheme = "")
    (h5 : ¬ u.netloc = "")
    (hc : w.clean_fails 0 = false ∨ w.clean_fails 1 = false ∨ w.clean_fails 2 = false)
    (hg : clone_repository w.git = Except.ok tree)
    (hd : w.docker = DockerResult.err e) :
    (build_image req w).result = HandlerResult.response 500 (RespBody.errorBody e.pystr) := by
  rw [build_image_valid req w s u h1 h2 h3 hok h4 h5]
  exact (finish_build_docker_error w _ _ tree e hc hg hd).1

/-- Witness for the amended C5 at the concrete unexpected-failure world. -/
theorem pipeline_error_own_message_amended_witness :
    (build_image reqApp worldUnexpected).result =
      HandlerResult.response 500 (RespBody.errorBody (PyExc.other "division by zero").pystr) :=
  pipeline_error_own_message_amended reqApp worldUnexpected
    "https://example.com/org/app.git" appParts [("index.html", "x")] (PyExc.other "division by zero")
    rfl (by decide) (by decide) (by rfl) (by decide) (by decide) (Or.inl rfl) rfl rfl


/-- Counterexample to C10 as stated: for a non-string `repo_url` the
`.strip()` call raises on app.py line 182, which is before the outer try
begins on line 187, so the exception escapes the handler — no response
with the generic JSON body `{"error": "Internal server error"}` is
produced by the handler. -/
theorem nonstring_repo_url_counterexample :
    (build_image reqNonString worldStatic).result =
      HandlerResult.uncaught (PyExc.attributeError "object has no attribute strip") ∧
    (build_image reqNonString worldStatic).result ≠
      HandlerResult.response 500 (RespBody.errorBody "Internal server error") := by
  exact ⟨by decide, by decide⟩

/-- C10 amended: for a JSON body whose `repo_url` is present but not a
string, the handler raises an uncaught AttributeError before validation
completes and produces no response itself (the framework's default 500
error page results, not the handler's generic JSON body); no pipeline
step runs. -/
theorem nonstring_repo_url_uncaught_amended (req : HttpRequest) (w : World) (v : PyVal)
    (h1 : req.json_ok = true)
    (h2 : dictGet req.json_data "repo_url" (PyVal.str "") = v)
    (h3 : ∀ t, v ≠ PyVal.str t) :
    (build_image req w).result =
      HandlerResult.uncaught (PyExc.attributeError "object has no attribute strip") ∧
    (build_image req w).ws_dir = w.init_dir ∧
    (build_image req w).ran_clean = false ∧
    (build_image req w).ran_clone = false ∧
    (build_image req w).ran_detect = false ∧
    (build_image req w).ran_build = false := by
  have hv : pyStripVal v = Except.error (PyExc.attributeError "object has no attribute strip") := by
    cases v with
    | str t => exact absurd rfl (h3 t)
    | num n => rfl
    | pynone => rfl
    | list l => rfl
  have hb : build_image req w =
      uncaughtOutput w (PyExc.attributeError "object has no attribute strip") := by
    unfold build_image
    rw [h2, hv]
    rw [if_neg (by simp [h1])]
  rw [hb]
  exact ⟨rfl, rfl, rfl, rfl, rfl, rfl⟩

/-- Witness for the amended C10 at the concrete non-string request. -/
theorem nonstring_repo_url_uncaught_amended_witness :
    (build_image reqNonString worldStatic).result =
      HandlerResult.uncaught (PyExc.attributeError "object has no attribute strip") ∧
    (build_image reqNonString worldStatic).ran_clone = false :=
  have h := nonstring_repo_url_uncaught_amended reqNonString worldStatic (PyVal.num 5)
    rfl rfl (by intro t h; cases h)
  ⟨h.1, h.2.2.2.1⟩

/-- The engine is only ever invoked with the tag keyed by the sanitized
repository name. -/
lemma run_pipeline_build_tag_shape (w : World) (bd rn : String) :
    (run_pipeline w bd rn).build_tag = none ∨
    (run_pipeline w bd rn).build_tag = some ("builder/" ++ rn ++ ":latest") := by
  unfold run_pipeline
  cases hcl : clean_build_dir w.clean_fails bd with
  | error m => simp
  | ok k =>
    cases hg : clone_repository w.git with
    | error e => simp
    | ok tree =>
      cases hd : w.docker with
      | err e => simp
      | ok d =>
        cases ht : d.image.tags with
        | nil => simp [ht]
        | cons a b => simp [ht]

lemma finish_build_build_tag (w : World) (bd rn : String) :
    (finish_build w bd rn).build_tag = (run_pipeline w bd rn).build_tag := by
  unfold finish_build
  cases h : (run_pipeline w bd rn).outcome <;> simp [h]

/-- Every character of the sanitized name is in the class `[a-z0-9-]`. -/
lemma pySub_chars (s : String) :
    ∀ c ∈ (pySub s).data, ('a' ≤ c ∧ c ≤ 'z') ∨ ('0' ≤ c ∧ c ≤ '9') ∨ c = '-' := by
  intro c hc
  simp only [pySub] at hc
  rw [List.mem_map] at hc
  obtain ⟨x, hx, rfl⟩ := hc
  by_cases h : allowedChar x = true
  · rw [if_pos h]
    have h2 : (('a' ≤ x ∧ x ≤ 'z') ∨ ('0' ≤ x ∧ x ≤ '9')) ∨ x = '-' := by
      simpa [allowedChar] using h
    exact or_assoc.mp h2
  · rw [if_neg h]
    exact Or.inr (Or.inr rfl)

/-- Counterexample to C9 as stated: the identifier is not obtained by
lower-casing and sanitising the URL's path component itself; the code
first takes the stem of the final path segment (app.py line 193).  At the
claim's own example URL the two derivations disagree, and the handler's
tag uses the stem-based one. -/
theorem repo_identifier_derivation_counterexample :
    repo_name_of "/org/my-static-site.git" = "my-static-site" ∧
    spec_identifier "/org/my-static-site.git" = "-org-my-static-site-git" ∧
    repo_name_of "/org/my-static-site.git" ≠ spec_identifier "/org/my-static-site.git" ∧
    (build_image reqStatic worldStatic).build_tag = some "builder/my-static-site:latest" ∧
    some ("builder/" ++ spec_identifier "/org/my-static-site.git" ++ ":latest") ≠
      (build_image reqStatic worldStatic).build_tag := by
  exact ⟨by decide, by decide, by decide, by decide, by decide⟩

/-- C9 amended: the identifier is derived from the stem of the final
segment of the URL's path component (lower-cased, every character outside
`[a-z0-9-]` replaced by `-`); the workspace path and the image tag are
keyed by it; it contains only characters in `[a-z0-9-]`; and for the
example URL the image tag contains `my-static-site`. -/
theorem repo_identifier_sanitized_amended (req : HttpRequest) (w : World) (s : String)
    (u : UrlParts)
    (h1 : req.json_ok = true)
    (h2 : dictGet req.json_data "repo_url" (PyVal.str "") = PyVal.str s)
    (h3 : ¬ pystrip s = "")
    (hok : urlparse (pystrip s) = Except.ok u)
    (h4 : ¬ u.scheme = "")
    (h5 : ¬ u.netloc = "") :
    (∀ p : String, ∀ c ∈ (repo_name_of p).data,
      ('a' ≤ c ∧ c ≤ 'z') ∨ ('0' ≤ c ∧ c ≤ '9') ∨ c = '-') ∧
    (build_image req w).ws_path =
      some ("/tmp/builds/" ++ repo_name_of u.upath) ∧
    ((build_image req w).build_tag = none ∨
      (build_image req w).build_tag =
        some ("builder/" ++ repo_name_of u.upath ++ ":latest")) ∧
    containsSubstr
      ("builder/" ++ repo_name_of (splitUrl (pystrip
        "https://example.com/org/my-static-site.git")).upath ++ ":latest")
      "my-static-site" = true := by
  rw [build_image_valid req w s u h1 h2 h3 hok h4 h5]
  refine ⟨fun p => pySub_chars (pyLower (pyStem p)), finish_build_ws_path w _ _, ?_, by decide⟩
  rw [finish_build_build_tag]
  exact run_pipeline_build_tag_shape w _ _

/-- Witness for the amended C9 at the scenario-A request. -/
theorem repo_identifier_sanitized_amended_witness :
    (build_image reqStatic worldStatic).ws_path =
      some ("/tmp/builds/" ++ repo_name_of staticParts.upath) ∧
    containsSubstr
      ("builder/" ++ repo_name_of (splitUrl (pystrip
        "https://example.com/org/my-static-site.git")).upath ++ ":latest")
      "my-static-site" = true :=
  have h := repo_identifier_sanitized_amended reqStatic worldStatic
    "https://example.com/org/my-static-site.git" staticParts
    rfl (by decide) (by decide) (by rfl) (by decide) (by decide)
  ⟨h.2.1, h.2.2.2⟩
